import Mathlib

/-!
Shallow embedding of the Rogue-App todo backend (src/server.js): a small
Express server whose handlers validate input, check ownership and delegate
persistence to a document store, and whose auth middleware delegates token
verification to an identity provider.  Request-body fields and stored
document fields are modelled as JavaScript values (`JsVal`) so that the
source's truthiness checks (`!title`, `description || ''`, `dueDate || null`,
`!token`) are embedded faithfully.  Server time is passed to each handler
as an explicit `now : Nat` in place of `admin.firestore.Timestamp.now()`.
-/

namespace RogueApp

/-- A JavaScript value as it can appear in a request body or a stored
document field.  `undef` stands for `undefined`, i.e. a field that is
absent from the enclosing object. -/
inductive JsVal where
  | undef
  | null
  | bool (b : Bool)
  | str (s : String)
  | num (n : Int)
deriving DecidableEq

/-- JavaScript truthiness: `undefined`, `null`, `false`, `''` and `0` are
falsy, everything else modelled here is truthy. -/
def JsVal.truthy : JsVal → Bool
  | .undef => false
  | .null => false
  | .bool b => b
  | .str s => !s.isEmpty
  | .num n => n != 0

/-- JavaScript `a || b`: returns `a` when `a` is truthy, otherwise `b`. -/
def JsVal.orJs (a b : JsVal) : JsVal :=
  if a.truthy then a else b

/-- A todo document as stored in the `todos` collection (server.js lines
141-149 build it; PATCH merges into it).  A `dueDate` of `JsVal.null` is a
field stored with an explicit `null` value; only `JsVal.undef` would stand
for an absent field. -/
structure TodoDoc where
  userId : String
  title : JsVal
  description : JsVal
  dueDate : JsVal
  createdAt : Nat
  updatedAt : Nat
  completed : JsVal
deriving DecidableEq

/-- A mirror user document in the `users` collection (server.js line 95). -/
structure UserDoc where
  email : String
  name : String
deriving DecidableEq

/-- The document store: the `todos` and `users` collections as association
lists from store-assigned ids to documents, plus a counter from which fresh
ids are produced. -/
structure Store where
  todos : List (String × TodoDoc)
  users : List (String × UserDoc)
  nextId : Nat
deriving DecidableEq

/-- Body of a JSON response.  `createdTodo` is `{ id: docRef.id, ...todo }`,
`todoList` is the array of `{ id: doc.id, ...doc.data() }` objects. -/
inductive RespBody where
  | errMsg (e : String)
  | msg (m : String)
  | createdTodo (id : String) (t : TodoDoc)
  | todoList (ts : List (String × TodoDoc))
  | token (t : String)
deriving DecidableEq

/-- An HTTP response: status code and JSON body. -/
structure Response where
  status : Nat
  body : RespBody
deriving DecidableEq

/-- Fetch a document by id (`db.collection('todos').doc(id).get()`): the
first entry with the given id, if any. -/
def getDoc (todos : List (String × TodoDoc)) (id : String) : Option TodoDoc :=
  (todos.find? (fun p => p.1 == id)).map (fun p => p.2)

/-- The store's insert operation (`db.collection('todos').add(todo)`):
assigns a fresh id and appends the document. -/
def Store.addTodo (s : Store) (t : TodoDoc) : String × Store :=
  let id := "todo" ++ toString s.nextId
  (id, { s with todos := s.todos ++ [(id, t)], nextId := s.nextId + 1 })

/-- `db.collection('users').doc(uid).set(d)`: upsert keyed by `uid`. -/
def setUserDoc (users : List (String × UserDoc)) (uid : String) (d : UserDoc) :
    List (String × UserDoc) :=
  if users.any (fun p => p.1 == uid) then
    users.map (fun p => if p.1 == uid then (p.1, d) else p)
  else
    users ++ [(uid, d)]

/-- A user record held by the external Identity Provider. -/
structure IdPUser where
  uid : String
  email : String
  password : String
  displayName : Option String
deriving DecidableEq

/-- State of the external Identity Provider: its user records and a counter
from which fresh uids are produced. -/
structure IdP where
  users : List IdPUser
  nextUid : Nat
deriving DecidableEq

/-- The Identity Provider's create-user operation
(`admin.auth().createUser({ email, password, displayName })`): fails when
the email is already taken, otherwise records the user under a fresh uid. -/
def IdP.createUser (idp : IdP) (email password : String) (displayName : Option String) :
    Except String (String × IdP) :=
  if idp.users.any (fun u => u.email == email) then
    .error "The email address is already in use by another account."
  else
    let uid := "uid" ++ toString idp.nextUid
    .ok (uid,
      { users := idp.users ++ [⟨uid, email, password, displayName⟩],
        nextUid := idp.nextUid + 1 })

/-- Truthiness of an optional string body field (`!email` in JS is true
both when the field is absent and when it is the empty string). -/
def optTruthy : Option String → Bool
  | none => false
  | some s => !s.isEmpty

/-- The `authenticate` middleware (server.js lines 60-70).  `verify` is the
Identity Provider's `admin.auth().verifyIdToken`; `authHeader` the raw
`req.headers.authorization` (absent = `none`); `handler` the protected
handler, which receives the verified uid.  The source's `if (!token)` is
true both when the header is absent and when it is the empty string. -/
def authenticate (verify : String → Option String) (authHeader : Option String)
    (handler : String → Store → Response × Store) (s : Store) : Response × Store :=
  match authHeader with
  | none => (⟨401, .errMsg "Unauthorized"⟩, s)
  | some token =>
      if token.isEmpty then (⟨401, .errMsg "Unauthorized"⟩, s)
      else
        match verify token with
        | none => (⟨401, .errMsg "Invalid token"⟩, s)
        | some uid => handler uid s

/-- The POST /signup handler (server.js lines 81-104): validates that email
and password are present and non-empty, creates the user at the Identity
Provider, then writes the mirror document to the `users` collection. -/
def signup (email password name : Option String) (idp : IdP) (s : Store) :
    Response × IdP × Store :=
  if !optTruthy email || !optTruthy password then
    (⟨400, .errMsg "Email and password required"⟩, idp, s)
  else
    match idp.createUser (email.getD "") (password.getD "") name with
    | .error e => (⟨400, .errMsg e⟩, idp, s)
    | .ok (uid, idp2) =>
        (⟨201, .msg "User created successfully"⟩, idp2,
         { s with users := setUserDoc s.users uid ⟨email.getD "", name.getD ""⟩ })

/-- Request body of POST /todos.  The handler destructures only `title`,
`description` and `dueDate` (server.js line 138); the remaining fields model
extra attributes a caller may supply, which the handler never reads. -/
structure CreateBody where
  title : JsVal
  description : JsVal
  dueDate : JsVal
  userId : JsVal
  completed : JsVal
  createdAt : JsVal
  updatedAt : JsVal
  id : JsVal
deriving DecidableEq

/-- The POST /todos handler after authentication (server.js lines 137-157):
rejects a falsy title, otherwise builds the todo record (`description || ''`,
`dueDate || null`, both timestamps `now`, `completed: false`) and inserts it. -/
def createTodo (uid : String) (body : CreateBody) (now : Nat) (s : Store) :
    Response × Store :=
  if !body.title.truthy then
    (⟨400, .errMsg "Title is required"⟩, s)
  else
    let todo : TodoDoc :=
      { userId := uid
        title := body.title
        description := body.description.orJs (.str "")
        dueDate := body.dueDate.orJs .null
        createdAt := now
        updatedAt := now
        completed := .bool false }
    let r := s.addTodo todo
    (⟨201, .createdTodo r.1 todo⟩, r.2)

/-- The GET /todos handler after authentication (server.js lines 163-178):
returns every stored todo whose `userId` equals the caller's id, each paired
with its store-assigned id. -/
def listTodos (uid : String) (s : Store) : Response × Store :=
  (⟨200, .todoList (s.todos.filter (fun p => p.2.userId == uid))⟩, s)

/-- The DELETE /todos/:id handler after authentication (server.js lines
184-199): fetches the document; if it does not exist or its `userId`
differs from the caller's, responds 404 and leaves the store unchanged;
otherwise removes the document with that id and responds 200. -/
def deleteTodo (uid : String) (id : String) (s : Store) : Response × Store :=
  match getDoc s.todos id with
  | none => (⟨404, .errMsg "Todo not found or unauthorized"⟩, s)
  | some t =>
      if t.userId != uid then
        (⟨404, .errMsg "Todo not found or unauthorized"⟩, s)
      else
        (⟨200, .msg "Todo deleted successfully"⟩,
         { s with todos := s.todos.filter (fun p => p.1 != id) })

/-- Request body of PATCH /todos/:id: the handler destructures only
`completed` (server.js line 207); `undef` models a body omitting it. -/
structure PatchBody where
  completed : JsVal
deriving DecidableEq

/-- The store's keyed update operation,
`docRef.update({ completed, updatedAt: Timestamp.now() })` (server.js lines
216-219).  The external store rejects `undefined` as a field value (the app
never enables `ignoreUndefinedProperties`), so when the request body omitted
`completed` the operation throws and nothing is written; otherwise the two
fields are merged into the document with the given id. -/
def Store.updateTodoFields (s : Store) (id : String) (completed : JsVal) (now : Nat) :
    Except String Store :=
  if completed = .undef then
    .error "Value for argument \"dataOrField\" is not a valid Firestore document. Cannot use \"undefined\" as a Firestore value (found in field \"completed\")."
  else
    .ok { s with todos := s.todos.map (fun p =>
        if p.1 == id then (p.1, { p.2 with completed := completed, updatedAt := now })
        else p) }

/-- The PATCH /todos/:id handler after authentication (server.js lines
205-224): same existence/ownership check as delete; then passes the body's
`completed` value, unvalidated, to the store's update operation together
with a fresh `updatedAt`.  If the store accepts the update the handler
responds 200 with a message; if the store throws (an omitted `completed` is
`undefined`, which the store rejects) the catch block responds 500 with the
upstream error message and nothing was written. -/
def updateTodo (uid : String) (id : String) (body : PatchBody) (now : Nat) (s : Store) :
    Response × Store :=
  match getDoc s.todos id with
  | none => (⟨404, .errMsg "Todo not found or unauthorized"⟩, s)
  | some t =>
      if t.userId != uid then
        (⟨404, .errMsg "Todo not found or unauthorized"⟩, s)
      else
        match s.updateTodoFields id body.completed now with
        | .error e => (⟨500, .errMsg e⟩, s)
        | .ok s2 => (⟨200, .msg "Todo updated successfully"⟩, s2)

/-- A request's todo either is absent from the store or belongs to another
user: the two causes the 404 response deliberately does not distinguish. -/
def notOwned (s : Store) (id uid : String) : Prop :=
  getDoc s.todos id = none ∨ ∃ t, getDoc s.todos id = some t ∧ t.userId ≠ uid

/-- A sample stored todo owned by alice, for concrete evaluations. -/
def todoA : TodoDoc :=
  { userId := "alice", title := .str "T", description := .str "", dueDate := .null,
    createdAt := 0, updatedAt := 0, completed := .bool false }

/-- A one-document store holding alice's todo under id "todo0". -/
def storeA : Store := { todos := [("todo0", todoA)], users := [], nextId := 1 }

/-- The empty store. -/
def emptyStore : Store := { todos := [], users := [], nextId := 0 }

/-- A create body whose title is present but the empty string, all other
fields absent. -/
def bodyEmptyTitle : CreateBody :=
  { title := .str "", description := .undef, dueDate := .undef, userId := .undef,
    completed := .undef, createdAt := .undef, updatedAt := .undef, id := .undef }

/-- A create body with a valid title and every optional field omitted. -/
def bodyTitleOnly : CreateBody :=
  { title := .str "Task", description := .undef, dueDate := .undef, userId := .undef,
    completed := .undef, createdAt := .undef, updatedAt := .undef, id := .undef }

/-- The create body of the spec's round-trip scenario. -/
def bodyGroceries : CreateBody :=
  { title := .str "Buy Groceries", description := .str "Get milk and bread",
    dueDate := .str "2025-02-10", userId := .undef, completed := .undef,
    createdAt := .undef, updatedAt := .undef, id := .undef }

/-- A create body that also smuggles in userId, completed, timestamps and id. -/
def bodySmuggled : CreateBody :=
  { title := .str "Task", description := .undef, dueDate := .undef,
    userId := .str "mallory", completed := .bool true, createdAt := .num 99,
    updatedAt := .num 99, id := .str "fake" }

/-- A verifier accepting exactly the token "tok" as alice, for witnesses. -/
def verifyA : String → Option String :=
  fun t => if t == "tok" then some "alice" else none

/-- An Identity Provider holding no users. -/
def idp0 : IdP := { users := [], nextUid := 0 }

/- ------------------------------------------------------------------ -/
/- Helper lemmas about document lookup in the modelled store.          -/
/- ------------------------------------------------------------------ -/

/-- Looking up `id` after the keyed map-update that `updateTodo` performs
yields the original document transformed by `g`. -/
theorem getDoc_update_self (l : List (String × TodoDoc)) (id : String)
    (g : TodoDoc → TodoDoc) :
    getDoc (l.map (fun p => if p.1 == id then (p.1, g p.2) else p)) id =
      (getDoc l id).map g := by
  induction l with
  | nil => rfl
  | cons p l ih =>
      simp only [List.map_cons]
      unfold getDoc at ih ⊢
      by_cases hp : p.1 = id
      · rw [if_pos (by simpa using hp)]
        rw [List.find?_cons_of_pos _ (by simpa using hp),
            List.find?_cons_of_pos _ (by simpa using hp)]
        simp
      · rw [if_neg (by simpa using hp)]
        rw [List.find?_cons_of_neg _ (by simpa using hp),
            List.find?_cons_of_neg _ (by simpa using hp)]
        exact ih

/-- Looking up a different id after the keyed map-update that `updateTodo`
performs is unchanged. -/
theorem getDoc_update_other (l : List (String × TodoDoc)) (id id2 : String)
    (g : TodoDoc → TodoDoc) (h : id2 ≠ id) :
    getDoc (l.map (fun p => if p.1 == id then (p.1, g p.2) else p)) id2 =
      getDoc l id2 := by
  induction l with
  | nil => rfl
  | cons p l ih =>
      simp only [List.map_cons]
      unfold getDoc at ih ⊢
      by_cases hq : p.1 = id2
      · have hp : ¬ p.1 = id := fun hc => h (by rw [← hq, hc])
        rw [if_neg (by simpa using hp)]
        rw [List.find?_cons_of_pos _ (by simpa using hq),
            List.find?_cons_of_pos _ (by simpa using hq)]
      · by_cases hp : p.1 = id
        · rw [if_pos (by simpa using hp)]
          rw [List.find?_cons_of_neg _ (by simpa [hp] using hq),
              List.find?_cons_of_neg _ (by simpa using hq)]
          exact ih
        · rw [if_neg (by simpa using hp)]
          rw [List.find?_cons_of_neg _ (by simpa using hq),
              List.find?_cons_of_neg _ (by simpa using hq)]
          exact ih

/-- On a record the caller owns, with a defined `completed` value in the
body, `updateTodo` responds 200 and performs the keyed merge of `completed`
and `updatedAt` into the stored document. -/
theorem updateTodo_success (uid id : String) (body : PatchBody) (now : Nat)
    (s : Store) (t : TodoDoc)
    (ht : getDoc s.todos id = some t) (hown : t.userId = uid)
    (hc : body.completed ≠ .undef) :
    updateTodo uid id body now s
      = (⟨200, .msg "Todo updated successfully"⟩,
         { s with todos := s.todos.map (fun p =>
             if p.1 == id
             then (p.1, { p.2 with completed := body.completed, updatedAt := now })
             else p) }) := by
  have hb : (t.userId != uid) = false := by simp [hown]
  simp [updateTodo, ht, hb, Store.updateTodoFields, hc]

/-- On a record the caller owns, an update whose body's `completed` is
undefined (omitted) is rejected by the store: the response is 500 with the
upstream message and the store is unchanged. -/
theorem updateTodo_undef_rejected (uid id : String) (now : Nat)
    (s : Store) (t : TodoDoc)
    (ht : getDoc s.todos id = some t) (hown : t.userId = uid) :
    (updateTodo uid id ⟨.undef⟩ now s).1.status = 500 ∧
    (updateTodo uid id ⟨.undef⟩ now s).2 = s := by
  have hb : (t.userId != uid) = false := by simp [hown]
  simp [updateTodo, ht, hb, Store.updateTodoFields]

/-- After a successful `updateTodo`, looking up the target id yields the
original document with exactly `completed` and `updatedAt` replaced. -/
theorem getDoc_updateTodo_self (uid id : String) (body : PatchBody) (now : Nat)
    (s : Store) (t : TodoDoc)
    (ht : getDoc s.todos id = some t) (hown : t.userId = uid)
    (hc : body.completed ≠ .undef) :
    getDoc (updateTodo uid id body now s).2.todos id
      = some { t with completed := body.completed, updatedAt := now } := by
  rw [updateTodo_success uid id body now s t ht hown hc]
  have h2 := getDoc_update_self s.todos id
    (fun d => { d with completed := body.completed, updatedAt := now })
  rw [ht] at h2
  simpa using h2

/-- After a successful `updateTodo`, looking up any other id is unchanged. -/
theorem getDoc_updateTodo_other (uid id id2 : String) (body : PatchBody)
    (now : Nat) (s : Store) (t : TodoDoc)
    (ht : getDoc s.todos id = some t) (hown : t.userId = uid)
    (hc : body.completed ≠ .undef) (hne : id2 ≠ id) :
    getDoc (updateTodo uid id body now s).2.todos id2 = getDoc s.todos id2 := by
  rw [updateTodo_success uid id body now s t ht hown hc]
  have h2 := getDoc_update_other s.todos id id2
    (fun d => { d with completed := body.completed, updatedAt := now }) hne
  simpa using h2

/- ------------------------------------------------------------------ -/
/- Claim theorems.                                                     -/
/- ------------------------------------------------------------------ -/

/-- C1: for delete-todo and update-todo by an authenticated caller, when the
target does not exist or belongs to another user, both handlers respond 404
with the same body in either failure cause and leave the store unchanged;
otherwise delete-todo responds 200 with a confirmation message and removes
exactly the record with the given id, keeping every other record. -/
theorem delete_update_unowned_404_and_delete_removes
    (uid id : String) (body : PatchBody) (now : Nat) (s : Store) :
    (notOwned s id uid →
        deleteTodo uid id s = (⟨404, .errMsg "Todo not found or unauthorized"⟩, s) ∧
        updateTodo uid id body now s
          = (⟨404, .errMsg "Todo not found or unauthorized"⟩, s)) ∧
    (∀ t, getDoc s.todos id = some t → t.userId = uid →
        (deleteTodo uid id s).1 = ⟨200, .msg "Todo deleted successfully"⟩ ∧
        (∀ t2, (id, t2) ∉ (deleteTodo uid id s).2.todos) ∧
        (∀ p : String × TodoDoc, p.1 ≠ id →
            (p ∈ (deleteTodo uid id s).2.todos ↔ p ∈ s.todos))) := by
  constructor
  · rintro (h | ⟨t, ht, hne⟩)
    · simp [deleteTodo, updateTodo, h]
    · have hb : (t.userId != uid) = true := bne_iff_ne.mpr hne
      simp [deleteTodo, updateTodo, ht, hb]
  · intro t ht huid
    have hb : (t.userId != uid) = false := by simp [huid]
    refine ⟨by simp [deleteTodo, ht, hb], ?_, ?_⟩
    · intro t2
      simp [deleteTodo, ht, hb, List.mem_filter]
    · intro p hp
      simp [deleteTodo, ht, hb, List.mem_filter, bne_iff_ne, hp]

/-- Witness for C1: bob is 404-rejected on alice's todo with the store
unchanged, and alice's own delete succeeds. -/
theorem delete_update_unowned_404_witness :
    (deleteTodo "bob" "todo0" storeA
        = (⟨404, .errMsg "Todo not found or unauthorized"⟩, storeA) ∧
     updateTodo "bob" "todo0" ⟨.bool true⟩ 5 storeA
        = (⟨404, .errMsg "Todo not found or unauthorized"⟩, storeA)) ∧
    (deleteTodo "alice" "todo0" storeA).1 = ⟨200, .msg "Todo deleted successfully"⟩ :=
  ⟨(delete_update_unowned_404_and_delete_removes "bob" "todo0" ⟨.bool true⟩ 5 storeA).1
      (Or.inr ⟨todoA, by decide, by decide⟩),
   ((delete_update_unowned_404_and_delete_removes "alice" "todo0" ⟨.bool true⟩ 5 storeA).2
      todoA (by decide) rfl).1⟩

/-- C2 as stated is refuted at an empty Authorization header: the header is
present (value ""), the verifier would accept any token, yet the middleware
responds 401 Unauthorized without consulting the verifier or running the
handler. -/
theorem auth_empty_header_counterexample :
    authenticate (fun _ => some "alice") (some "") listTodos storeA
        = (⟨401, .errMsg "Unauthorized"⟩, storeA) ∧
    authenticate (fun _ => some "alice") (some "") listTodos storeA
        ≠ listTodos "alice" storeA := by
  exact ⟨rfl, by decide⟩

/-- C2 amended: if the Authorization header is absent or empty, the response
is 401 Unauthorized, independent of the verifier, handler and store content
(the Identity Provider is never called and no data is read or changed); if
the header is present and non-empty, its raw value is passed as the token to
the verifier, any verification failure yields 401 with an invalid-token
error, and on success the handler runs with the verified user id. -/
theorem auth_gateway_amended (verify verify2 : String → Option String)
    (handler handler2 : String → Store → Response × Store) (s : Store)
    (hdr : Option String) :
    (hdr = none ∨ hdr = some "" →
        authenticate verify hdr handler s = (⟨401, .errMsg "Unauthorized"⟩, s) ∧
        authenticate verify hdr handler s = authenticate verify2 hdr handler2 s) ∧
    (∀ tok, hdr = some tok → tok ≠ "" →
        (verify tok = none →
            authenticate verify hdr handler s = (⟨401, .errMsg "Invalid token"⟩, s)) ∧
        (∀ uid, verify tok = some uid →
            authenticate verify hdr handler s = handler uid s)) := by
  constructor
  · rintro (h | h) <;> subst h
    · exact ⟨rfl, rfl⟩
    · exact ⟨rfl, rfl⟩
  · intro tok hh hne
    subst hh
    have he : tok.isEmpty = false := by
      rw [Bool.eq_false_iff]
      intro hc
      exact hne ((String.isEmpty_iff tok).mp hc)
    constructor
    · intro hv
      simp [authenticate, he, hv]
    · intro uid hv
      simp [authenticate, he, hv]

/-- Witness for the amended C2 on a verifier accepting exactly "tok". -/
theorem auth_gateway_amended_witness :
    authenticate verifyA none listTodos storeA
        = (⟨401, .errMsg "Unauthorized"⟩, storeA) ∧
    authenticate verifyA (some "bad") listTodos storeA
        = (⟨401, .errMsg "Invalid token"⟩, storeA) ∧
    authenticate verifyA (some "tok") listTodos storeA = listTodos "alice" storeA :=
  ⟨((auth_gateway_amended verifyA verifyA listTodos listTodos storeA none).1 (Or.inl rfl)).1,
   ((auth_gateway_amended verifyA verifyA listTodos listTodos storeA (some "bad")).2
      "bad" rfl (by decide)).1 (by decide),
   ((auth_gateway_amended verifyA verifyA listTodos listTodos storeA (some "tok")).2
      "tok" rfl (by decide)).2 "alice" (by decide)⟩

/-- C5: a signup request missing email or password (absent or empty) responds
400 "Email and password required" and leaves both the Identity Provider and
the store untouched: no user is created and no mirror document is written. -/
theorem signup_missing_fields_400 (email password name : Option String)
    (idp : IdP) (s : Store)
    (h : optTruthy email = false ∨ optTruthy password = false) :
    signup email password name idp s
      = (⟨400, .errMsg "Email and password required"⟩, idp, s) := by
  rcases h with h | h <;> simp [signup, h]

/-- Witness for C5 at an empty password. -/
theorem signup_missing_fields_witness :
    optTruthy (some "") = false ∧
    signup (some "a@x.com") (some "") none idp0 emptyStore
      = (⟨400, .errMsg "Email and password required"⟩, idp0, emptyStore) :=
  ⟨by decide,
   signup_missing_fields_400 (some "a@x.com") (some "") none idp0 emptyStore
      (Or.inr (by decide))⟩

/-- C3: list-todos responds 200 with exactly the stored records whose userId
equals the caller's id, each paired with its store-assigned id, leaving the
store unchanged; and a todo just created by the caller appears in the
caller's subsequent list result with title, description and dueDate intact
and completed = false. -/
theorem list_todos_exact_and_roundtrip (uid : String) (s : Store)
    (body : CreateBody) (now : Nat) (ht : body.title.truthy = true) :
    ((listTodos uid s).1.status = 200 ∧ (listTodos uid s).2 = s ∧
     ∃ l, (listTodos uid s).1.body = .todoList l ∧
        ∀ p : String × TodoDoc, p ∈ l ↔ p ∈ s.todos ∧ p.2.userId = uid) ∧
    (∃ id t l,
        (createTodo uid body now s).1 = ⟨201, .createdTodo id t⟩ ∧
        (listTodos uid (createTodo uid body now s).2).1.body = .todoList l ∧
        (id, t) ∈ l ∧
        t.title = body.title ∧
        (body.description.truthy = true → t.description = body.description) ∧
        (body.dueDate.truthy = true → t.dueDate = body.dueDate) ∧
        t.completed = .bool false) := by
  constructor
  · refine ⟨rfl, rfl, s.todos.filter (fun p => p.2.userId == uid), rfl, ?_⟩
    intro p
    simp [List.mem_filter]
  · refine ⟨"todo" ++ toString s.nextId,
      { userId := uid, title := body.title,
        description := body.description.orJs (.str ""),
        dueDate := body.dueDate.orJs .null,
        createdAt := now, updatedAt := now, completed := .bool false },
      ((s.todos ++ [("todo" ++ toString s.nextId,
        { userId := uid, title := body.title,
          description := body.description.orJs (.str ""),
          dueDate := body.dueDate.orJs .null,
          createdAt := now, updatedAt := now,
          completed := .bool false : TodoDoc})]).filter
            (fun p => p.2.userId == uid)),
      ?_, ?_, ?_, rfl, ?_, ?_, rfl⟩
    · simp [createTodo, ht, Store.addTodo]
    · simp [createTodo, ht, Store.addTodo, listTodos]
    · exact List.mem_filter.mpr ⟨List.mem_append_right _ (by simp), by simp⟩
    · intro hd; simp [JsVal.orJs, hd]
    · intro hdd; simp [JsVal.orJs, hdd]

/-- Witness for C3: the spec's round-trip scenario body on the empty store. -/
theorem list_todos_roundtrip_witness :
    bodyGroceries.title.truthy = true ∧
    ∃ id t l,
        (createTodo "alice" bodyGroceries 0 emptyStore).1 = ⟨201, .createdTodo id t⟩ ∧
        (listTodos "alice" (createTodo "alice" bodyGroceries 0 emptyStore).2).1.body
          = .todoList l ∧
        (id, t) ∈ l ∧
        t.title = bodyGroceries.title ∧
        (bodyGroceries.description.truthy = true → t.description = bodyGroceries.description) ∧
        (bodyGroceries.dueDate.truthy = true → t.dueDate = bodyGroceries.dueDate) ∧
        t.completed = .bool false :=
  ⟨by decide,
   (list_todos_exact_and_roundtrip "alice" emptyStore bodyGroceries 0 (by decide)).2⟩

/-- C4 as stated is refuted at a present-but-empty title: the body's title
is not missing, yet the response is 400 and nothing is persisted. -/
theorem create_empty_title_counterexample :
    bodyEmptyTitle.title ≠ .undef ∧
    createTodo "alice" bodyEmptyTitle 0 emptyStore
      = (⟨400, .errMsg "Title is required"⟩, emptyStore) :=
  ⟨by decide, by decide⟩

/-- C4 amended: if the title is missing or empty (JavaScript-falsy), the
response is 400 "Title is required" and nothing is persisted; otherwise a
record is persisted with userId equal to the caller's id, the given title,
description defaulting to the empty string, completed=false and both
timestamps set to the current server time, and the response is 201 with the
store-assigned id and all those fields. -/
theorem create_todo_validation_amended (uid : String) (body : CreateBody)
    (now : Nat) (s : Store) :
    (body.title.truthy = false →
        createTodo uid body now s = (⟨400, .errMsg "Title is required"⟩, s)) ∧
    (body.title.truthy = true →
        ∃ id t, createTodo uid body now s
            = (⟨201, .createdTodo id t⟩,
               { s with todos := s.todos ++ [(id, t)], nextId := s.nextId + 1 }) ∧
          t.userId = uid ∧ t.title = body.title ∧
          t.description = body.description.orJs (.str "") ∧
          t.completed = .bool false ∧ t.createdAt = now ∧ t.updatedAt = now) := by
  constructor
  · intro h
    simp [createTodo, h]
  · intro h
    refine ⟨"todo" ++ toString s.nextId,
      { userId := uid, title := body.title,
        description := body.description.orJs (.str ""),
        dueDate := body.dueDate.orJs .null,
        createdAt := now, updatedAt := now, completed := .bool false },
      ?_, rfl, rfl, rfl, rfl, rfl, rfl⟩
    simp [createTodo, h, Store.addTodo]

/-- Witness for the amended C4: both branches at concrete inputs. -/
theorem create_todo_validation_witness :
    createTodo "alice" bodyEmptyTitle 0 emptyStore
        = (⟨400, .errMsg "Title is required"⟩, emptyStore) ∧
    (∃ id t, createTodo "alice" bodyTitleOnly 3 emptyStore
        = (⟨201, .createdTodo id t⟩,
           { emptyStore with
             todos := emptyStore.todos ++ [(id, t)],
             nextId := emptyStore.nextId + 1 }) ∧
      t.userId = "alice" ∧ t.title = bodyTitleOnly.title ∧
      t.description = bodyTitleOnly.description.orJs (.str "") ∧
      t.completed = .bool false ∧ t.createdAt = 3 ∧ t.updatedAt = 3) :=
  ⟨(create_todo_validation_amended "alice" bodyEmptyTitle 0 emptyStore).1 (by decide),
   (create_todo_validation_amended "alice" bodyTitleOnly 3 emptyStore).2 (by decide)⟩

/-- C6 as stated is refuted: a create request omitting dueDate persists a
record whose dueDate field is stored with the explicit placeholder value
null rather than being absent. -/
theorem create_omitted_dueDate_counterexample :
    bodyTitleOnly.dueDate = .undef ∧
    ((createTodo "alice" bodyTitleOnly 0 emptyStore).2.todos.map
        (fun p => p.2.dueDate)) = [.null] ∧
    (JsVal.null ≠ .undef) :=
  ⟨rfl, by decide, by decide⟩

/-- C6 amended: when a create-todo request omits dueDate (or supplies any
falsy value for it), the persisted record's dueDate field holds the explicit
value null. -/
theorem create_omitted_dueDate_stores_null (uid : String) (body : CreateBody)
    (now : Nat) (s : Store) (ht : body.title.truthy = true)
    (hd : body.dueDate.truthy = false) :
    ∃ id t, (createTodo uid body now s).1 = ⟨201, .createdTodo id t⟩ ∧
      (id, t) ∈ (createTodo uid body now s).2.todos ∧
      t.dueDate = .null := by
  refine ⟨"todo" ++ toString s.nextId,
    { userId := uid, title := body.title,
      description := body.description.orJs (.str ""),
      dueDate := body.dueDate.orJs .null,
      createdAt := now, updatedAt := now, completed := .bool false },
    ?_, ?_, ?_⟩
  · simp [createTodo, ht, Store.addTodo]
  · simp [createTodo, ht, Store.addTodo]
  · simp [JsVal.orJs, hd]

/-- Witness for the amended C6. -/
theorem create_omitted_dueDate_witness :
    bodyTitleOnly.title.truthy = true ∧ bodyTitleOnly.dueDate.truthy = false ∧
    ∃ id t, (createTodo "alice" bodyTitleOnly 0 emptyStore).1 = ⟨201, .createdTodo id t⟩ ∧
      (id, t) ∈ (createTodo "alice" bodyTitleOnly 0 emptyStore).2.todos ∧
      t.dueDate = .null :=
  ⟨by decide, by decide,
   create_omitted_dueDate_stores_null "alice" bodyTitleOnly 0 emptyStore
      (by decide) (by decide)⟩

/-- C7: a successful update-todo on a record the caller owns (the body
carrying a defined completed value, which the store accepts) modifies only
the record's completed and updatedAt fields — its userId, title,
description, dueDate and createdAt are unchanged and every other record is
untouched — and the response is 200 with a confirmation message, not the
updated record. -/
theorem update_modifies_only_completed_updatedAt
    (uid id : String) (body : PatchBody) (now : Nat) (s : Store) (t : TodoDoc)
    (ht : getDoc s.todos id = some t) (hown : t.userId = uid)
    (hc : body.completed ≠ .undef) :
    (updateTodo uid id body now s).1 = ⟨200, .msg "Todo updated successfully"⟩ ∧
    (∃ t2, getDoc (updateTodo uid id body now s).2.todos id = some t2 ∧
        t2.userId = t.userId ∧ t2.title = t.title ∧
        t2.description = t.description ∧ t2.dueDate = t.dueDate ∧
        t2.createdAt = t.createdAt ∧
        t2.completed = body.completed ∧ t2.updatedAt = now) ∧
    (∀ id2, id2 ≠ id →
        getDoc (updateTodo uid id body now s).2.todos id2 = getDoc s.todos id2) := by
  refine ⟨by rw [updateTodo_success uid id body now s t ht hown hc], ?_, ?_⟩
  · exact ⟨{ t with completed := body.completed, updatedAt := now },
      getDoc_updateTodo_self uid id body now s t ht hown hc,
      rfl, rfl, rfl, rfl, rfl, rfl, rfl⟩
  · intro id2 hne
    exact getDoc_updateTodo_other uid id id2 body now s t ht hown hc hne

/-- Witness for C7: alice updates her own todo. -/
theorem update_only_completed_witness :
    (updateTodo "alice" "todo0" ⟨.bool true⟩ 7 storeA).1
        = ⟨200, .msg "Todo updated successfully"⟩ ∧
    (∃ t2, getDoc (updateTodo "alice" "todo0" ⟨.bool true⟩ 7 storeA).2.todos "todo0"
          = some t2 ∧
        t2.userId = todoA.userId ∧ t2.title = todoA.title ∧
        t2.description = todoA.description ∧ t2.dueDate = todoA.dueDate ∧
        t2.createdAt = todoA.createdAt ∧
        t2.completed = .bool true ∧ t2.updatedAt = 7) :=
  ⟨(update_modifies_only_completed_updatedAt "alice" "todo0" ⟨.bool true⟩ 7 storeA todoA
      (by decide) rfl (by decide)).1,
   (update_modifies_only_completed_updatedAt "alice" "todo0" ⟨.bool true⟩ 7 storeA todoA
      (by decide) rfl (by decide)).2.1⟩

/-- C8: updating a record the caller owns twice with the same defined
completed value yields the same stored completed value as a single update,
while each call writes a fresh updatedAt: performed at distinct server
times, the two stored updatedAt values are distinct. -/
theorem update_idempotent_completed_fresh_timestamps
    (uid id : String) (v : JsVal) (now1 now2 : Nat) (s : Store) (t : TodoDoc)
    (ht : getDoc s.todos id = some t) (hown : t.userId = uid)
    (hv : v ≠ .undef) (hne : now1 ≠ now2) :
    ∃ t1 t2,
      getDoc (updateTodo uid id ⟨v⟩ now1 s).2.todos id = some t1 ∧
      getDoc (updateTodo uid id ⟨v⟩ now2
          (updateTodo uid id ⟨v⟩ now1 s).2).2.todos id = some t2 ∧
      t2.completed = t1.completed ∧ t1.completed = v ∧
      t1.updatedAt = now1 ∧ t2.updatedAt = now2 ∧ t1.updatedAt ≠ t2.updatedAt := by
  have h1 := getDoc_updateTodo_self uid id ⟨v⟩ now1 s t ht hown hv
  have h2 := getDoc_updateTodo_self uid id ⟨v⟩ now2 _
    { t with completed := v, updatedAt := now1 } h1 hown hv
  exact ⟨_, _, h1, h2, rfl, rfl, rfl, rfl, hne⟩

/-- Witness for C8: two successive updates of alice's todo at times 1, 2. -/
theorem update_idempotent_witness :
    ∃ t1 t2,
      getDoc (updateTodo "alice" "todo0" ⟨.bool true⟩ 1 storeA).2.todos "todo0"
          = some t1 ∧
      getDoc (updateTodo "alice" "todo0" ⟨.bool true⟩ 2
          (updateTodo "alice" "todo0" ⟨.bool true⟩ 1 storeA).2).2.todos "todo0"
          = some t2 ∧
      t2.completed = t1.completed ∧ t1.completed = .bool true ∧
      t1.updatedAt = 1 ∧ t2.updatedAt = 2 ∧ t1.updatedAt ≠ t2.updatedAt :=
  update_idempotent_completed_fresh_timestamps "alice" "todo0" (.bool true) 1 2 storeA
    todoA (by decide) rfl (by decide) (by decide)

/-- C9: create-todo ignores any userId, completed, createdAt, updatedAt or
id fields supplied in the body — two bodies agreeing on title, description
and dueDate produce identical results — and the persisted record always
carries the authenticated caller's id, completed=false and server-assigned
timestamps. -/
theorem create_ignores_extra_body_fields (uid : String) (b1 b2 : CreateBody)
    (now : Nat) (s : Store)
    (h1 : b1.title = b2.title) (h2 : b1.description = b2.description)
    (h3 : b1.dueDate = b2.dueDate) :
    createTodo uid b1 now s = createTodo uid b2 now s ∧
    (b1.title.truthy = true →
      ∃ id t, (createTodo uid b1 now s).1 = ⟨201, .createdTodo id t⟩ ∧
        t.userId = uid ∧ t.completed = .bool false ∧
        t.createdAt = now ∧ t.updatedAt = now) := by
  constructor
  · simp [createTodo, h1, h2, h3]
  · intro htr
    refine ⟨"todo" ++ toString s.nextId,
      { userId := uid, title := b1.title,
        description := b1.description.orJs (.str ""),
        dueDate := b1.dueDate.orJs .null,
        createdAt := now, updatedAt := now, completed := .bool false },
      ?_, rfl, rfl, rfl, rfl⟩
    simp [createTodo, htr, Store.addTodo]

/-- Witness for C9: a body smuggling userId, completed, timestamps and id
behaves exactly like the plain title-only body. -/
theorem create_ignores_extra_witness :
    createTodo "alice" bodySmuggled 4 emptyStore
        = createTodo "alice" bodyTitleOnly 4 emptyStore ∧
    (∃ id t, (createTodo "alice" bodySmuggled 4 emptyStore).1
          = ⟨201, .createdTodo id t⟩ ∧
      t.userId = "alice" ∧ t.completed = .bool false ∧
      t.createdAt = 4 ∧ t.updatedAt = 4) :=
  ⟨(create_ignores_extra_body_fields "alice" bodySmuggled bodyTitleOnly 4 emptyStore
      rfl rfl rfl).1,
   (create_ignores_extra_body_fields "alice" bodySmuggled bodyTitleOnly 4 emptyStore
      rfl rfl rfl).2 (by decide)⟩

/-- C10 as stated is refuted at its own highlighted input: alice patches
her own todo with the body omitting completed (undefined).  The store's
update operation rejects the undefined field value, so the response is 500
(from the catch block) and the store is unchanged — in particular the
stored record still has updatedAt = 0, so updatedAt is not refreshed. -/
theorem update_omitted_completed_counterexample :
    (updateTodo "alice" "todo0" ⟨.undef⟩ 9 storeA).1.status = 500 ∧
    (updateTodo "alice" "todo0" ⟨.undef⟩ 9 storeA).2 = storeA ∧
    getDoc storeA.todos "todo0" = some todoA ∧ todoA.updatedAt ≠ 9 := by
  decide

/-- C10 amended: the update-todo handler performs no validation of
completed — no request ever receives a 400 response, and whatever value (or
absence of value) the body supplies for completed is passed through
unchanged to the store's update operation.  On a record the caller owns:
with a defined completed value the stored record receives that value and a
refreshed updatedAt, with a 200 response; when the body omits completed
entirely (undefined), the store's update operation rejects the undefined
field value, so the response is 500 and nothing — including updatedAt — is
written. -/
theorem update_no_validation_amended (uid id : String) (body : PatchBody)
    (now : Nat) (s : Store) :
    (updateTodo uid id body now s).1.status ≠ 400 ∧
    (∀ t, getDoc s.todos id = some t → t.userId = uid →
        (body.completed ≠ .undef →
            (updateTodo uid id body now s).1 = ⟨200, .msg "Todo updated successfully"⟩ ∧
            ∃ t2, getDoc (updateTodo uid id body now s).2.todos id = some t2 ∧
              t2.completed = body.completed ∧ t2.updatedAt = now) ∧
        (body.completed = .undef →
            (updateTodo uid id body now s).1.status = 500 ∧
            (updateTodo uid id body now s).2 = s)) := by
  constructor
  · unfold updateTodo
    cases hg : getDoc s.todos id with
    | none => simp
    | some t =>
        by_cases hb : (t.userId != uid) = true
        · simp [hb]
        · simp only [Bool.not_eq_true] at hb
          by_cases hc : body.completed = JsVal.undef
          · simp [hb, Store.updateTodoFields, hc]
          · simp [hb, Store.updateTodoFields, hc]
  · intro t ht hown
    constructor
    · intro hc
      refine ⟨by rw [updateTodo_success uid id body now s t ht hown hc], ?_⟩
      exact ⟨_, getDoc_updateTodo_self uid id body now s t ht hown hc, rfl, rfl⟩
    · intro hc
      have hb : body = ⟨.undef⟩ := by cases body; simp_all
      rw [hb]
      exact updateTodo_undef_rejected uid id now s t ht hown

/-- Witness for the amended C10: alice patches her todo once with a defined
value and once with completed omitted. -/
theorem update_no_validation_amended_witness :
    (updateTodo "alice" "todo0" ⟨.undef⟩ 9 storeA).1.status ≠ 400 ∧
    ((updateTodo "alice" "todo0" ⟨.bool false⟩ 9 storeA).1
        = ⟨200, .msg "Todo updated successfully"⟩ ∧
     ∃ t2, getDoc (updateTodo "alice" "todo0" ⟨.bool false⟩ 9 storeA).2.todos "todo0"
          = some t2 ∧
       t2.completed = .bool false ∧ t2.updatedAt = 9) ∧
    ((updateTodo "alice" "todo0" ⟨.undef⟩ 9 storeA).1.status = 500 ∧
     (updateTodo "alice" "todo0" ⟨.undef⟩ 9 storeA).2 = storeA) :=
  ⟨(update_no_validation_amended "alice" "todo0" ⟨.undef⟩ 9 storeA).1,
   ((update_no_validation_amended "alice" "todo0" ⟨.bool false⟩ 9 storeA).2
      todoA (by decide) rfl).1 (by decide),
   ((update_no_validation_amended "alice" "todo0" ⟨.undef⟩ 9 storeA).2
      todoA (by decide) rfl).2 rfl⟩

end RogueApp
